import Mathlib

/-!
Verification of the First Street Foundation API client
(`firststreet/api/adaptation.py` and `firststreet/api/probability.py`).

The product methods are embedded as pure Lean functions parameterised over
the behaviour of `call_api` (an oracle of type `CallApi`), returning the
method's result (`Except FsfError _`, since the methods can raise
`InvalidArgument`, `TypeError`, or propagate an API error) paired with an
`Effects` log that records, in order, every `call_api` invocation and every
`csv_format.to_csv` invocation the method performs.
-/

/-- A location-system identifier (FSID or adaptation ID). -/
abbrev Ident := Nat

/-- The untyped JSON object returned by the backend for one identifier.
Only the fields the adaptation/probability code inspects are named;
`fsid` stands for the record's own identifying field. -/
structure RawRecord where
  fsid : Option Nat
  adaptationId : Option Nat
  adaptation : Option (List Nat)
deriving Repr, DecidableEq

/-- The null-placeholder raw record `{"adaptationId": None}` built at
`adaptation.py` line 80 when no cross-reference IDs were found. -/
def nullAdaptationRecord : RawRecord := ⟨none, none, none⟩

/-- A transport/backend error raised by `call_api` (network failure or
non-success HTTP status); opaque to the facade methods, which never
inspect it. -/
structure ApiError where
  code : Nat
  msg : String
deriving Repr, DecidableEq

/-- A Python value, as far as the truthiness and `isinstance(_, str)`
checks in the facade methods can distinguish values. -/
inductive PyValue where
  | pynone
  | pybool (b : Bool)
  | pyint (n : Int)
  | pystr (s : String)
  | pylist (xs : List Nat)
deriving Repr, DecidableEq

/-- Python truthiness: `None`, `False`, `0`, `""` and `[]` are falsy. -/
def PyValue.truthy : PyValue → Bool
  | .pynone => false
  | .pybool b => b
  | .pyint n => n != 0
  | .pystr s => s != ""
  | .pylist xs => !xs.isEmpty

/-- `isinstance(v, str)`. -/
def PyValue.isStr : PyValue → Bool
  | .pystr _ => true
  | _ => false

/-- The underlying string of a `pystr` value (only used after `isStr`). -/
def PyValue.asStr : PyValue → String
  | .pystr s => s
  | _ => ""

/-- The errors a facade method can raise: `InvalidArgument` (from
`firststreet.errors`, carrying the offending argument), `TypeError`
(carrying its message), or a propagated `call_api` error. -/
inductive FsfError where
  | invalidArgument (arg : PyValue)
  | typeError (msg : String)
  | apiError (e : ApiError)
deriving Repr, DecidableEq

/-- Whether a method outcome is a raised `TypeError`. -/
def resultIsTypeError {α : Type} : Except FsfError α → Bool
  | .error (.typeError _) => true
  | _ => false

/-- Modelled from the spec: the model classes of
`firststreet.models.adaptation` are not under `src/`; per the spec a
`ProductRecord` is "a typed, immutable view over one RawRecord".
`AdaptationDetail` names the `adaptationId` identifying field the code
relies on and keeps the raw record in view. -/
structure AdaptationDetail where
  adaptationId : Option Nat
  raw : RawRecord
deriving Repr, DecidableEq

/-- Construction of an `AdaptationDetail` from one raw record
(`AdaptationDetail(api_data)`). -/
def AdaptationDetail.ofRaw (r : RawRecord) : AdaptationDetail :=
  ⟨r.adaptationId, r⟩

/-- Modelled from the spec: `firststreet.models.adaptation` is not under
`src/`. `AdaptationSummary` names the `adaptation` cross-reference list the
code at `adaptation.py` lines 73-74 reads, keeping the raw record in view. -/
structure AdaptationSummary where
  adaptation : Option (List Nat)
  raw : RawRecord
deriving Repr, DecidableEq

/-- Construction of an `AdaptationSummary` from one raw record
(`AdaptationSummary(api_data)`). -/
def AdaptationSummary.ofRaw (r : RawRecord) : AdaptationSummary :=
  ⟨r.adaptation, r⟩

/-- Modelled from the spec: `firststreet.models.probability` is not under
`src/`; a typed view over one raw record. -/
structure ProbabilityChance where
  raw : RawRecord
deriving Repr, DecidableEq

/-- `ProbabilityChance(api_data)`. -/
def ProbabilityChance.ofRaw (r : RawRecord) : ProbabilityChance := ⟨r⟩

/-- Modelled from the spec: typed view over one raw record. -/
structure ProbabilityCount where
  raw : RawRecord
deriving Repr, DecidableEq

/-- `ProbabilityCount(api_data)`. -/
def ProbabilityCount.ofRaw (r : RawRecord) : ProbabilityCount := ⟨r⟩

/-- Modelled from the spec: typed view over one raw record. -/
structure ProbabilityCountSummary where
  raw : RawRecord
deriving Repr, DecidableEq

/-- `ProbabilityCountSummary(api_data)`. -/
def ProbabilityCountSummary.ofRaw (r : RawRecord) : ProbabilityCountSummary := ⟨r⟩

/-- Modelled from the spec: typed view over one raw record. -/
structure ProbabilityCumulative where
  raw : RawRecord
deriving Repr, DecidableEq

/-- `ProbabilityCumulative(api_data)`. -/
def ProbabilityCumulative.ofRaw (r : RawRecord) : ProbabilityCumulative := ⟨r⟩

/-- Modelled from the spec: typed view over one raw record. -/
structure ProbabilityDepth where
  raw : RawRecord
deriving Repr, DecidableEq

/-- `ProbabilityDepth(api_data)`. -/
def ProbabilityDepth.ofRaw (r : RawRecord) : ProbabilityDepth := ⟨r⟩

/-- One recorded invocation of `call_api`, with the arguments the facade
passed: search item, product, subtype, optional location type, limit. -/
structure ApiCall where
  searchItem : List Ident
  product : String
  subtype : String
  locationType : Option String
  limit : Nat
deriving Repr, DecidableEq

/-- The record set handed to `csv_format.to_csv` (which list type depends
on the calling method; the two-phase method passes both lists together). -/
inductive CsvArg where
  | adaptationDetailList (l : List AdaptationDetail)
  | adaptationSummaryList (l : List AdaptationSummary)
  | summaryDetail (s : List AdaptationSummary) (d : List AdaptationDetail)
  | probChanceList (l : List ProbabilityChance)
  | probCountList (l : List ProbabilityCount)
  | probCountSummaryList (l : List ProbabilityCountSummary)
  | probCumulativeList (l : List ProbabilityCumulative)
  | probDepthList (l : List ProbabilityDepth)
deriving Repr, DecidableEq

/-- One recorded invocation of `csv_format.to_csv`. -/
structure CsvCall where
  arg : CsvArg
  product : String
  subtype : String
  locationType : Option String
  outputDir : Option String
deriving Repr, DecidableEq

/-- The observable side effects of one facade-method call: the `call_api`
invocations and the `to_csv` invocations, each in program order. -/
structure Effects where
  apiCalls : List ApiCall
  csvCalls : List CsvCall
deriving Repr, DecidableEq

/-- Modelled from the spec: `Api.call_api` (in `firststreet/api/api.py`)
is not under `src/`. It is treated as an oracle: given the search item,
product, subtype, optional location type and limit it either returns the
flat list of raw records (spec §6: "a JSON array of objects, one per
identifier") or fails with a transport/backend error. -/
abbrev CallApi :=
  List Ident → String → String → Option String → Nat → Except ApiError (List RawRecord)

namespace Adaptation

/-- `Adaptation.get_detail` (adaptation.py lines 22-44): one `call_api`
request, one `AdaptationDetail` per raw record, optional CSV export. -/
def get_detail (call_api : CallApi) (search_item : List Ident)
    (csv : Bool) (limit : Nat) (output_dir : Option String) :
    Except FsfError (List AdaptationDetail) × Effects :=
  let call : ApiCall := ⟨search_item, "adaptation", "detail", none, limit⟩
  match call_api search_item "adaptation" "detail" none limit with
  | .error e => (.error (.apiError e), ⟨[call], []⟩)
  | .ok api_datas =>
    let product := api_datas.map AdaptationDetail.ofRaw
    let csvCalls : List CsvCall :=
      if csv then [⟨.adaptationDetailList product, "adaptation", "detail", none, output_dir⟩]
      else []
    (.ok product, ⟨[call], csvCalls⟩)

/-- The deduplicated cross-reference ID list of adaptation.py lines 73-74:
`list(set([adaptation for sum_adap in summary if sum_adap.adaptation for
adaptation in sum_adap.adaptation]))`. Python's `set` fixes no element
order, so the embedding fixes one (`List.dedup`, keeping first
occurrences); every property proved of it concerns only membership and
duplicate-freedom. -/
def crossRefs (summary : List AdaptationSummary) : List Nat :=
  (((summary.filter (fun s => !(s.adaptation.getD []).isEmpty)).map
      (fun s => s.adaptation.getD [])).flatten).dedup

/-- `Adaptation.get_details_by_location` (adaptation.py lines 46-89):
validate `location_type`, fetch summaries, collect the deduplicated
cross-reference IDs, fetch details for them (or use the null placeholder
when there are none), optional CSV export of both lists together. -/
def get_details_by_location (call_api : CallApi) (search_item : List Ident)
    (location_type : PyValue) (csv : Bool) (limit : Nat) (output_dir : Option String) :
    Except FsfError (List AdaptationSummary × List AdaptationDetail) × Effects :=
  if !location_type.truthy then
    (.error (.invalidArgument location_type), ⟨[], []⟩)
  else if !location_type.isStr then
    (.error (.typeError "location is not a string"), ⟨[], []⟩)
  else
    let lt := location_type.asStr
    let sumCall : ApiCall := ⟨search_item, "adaptation", "summary", some lt, limit⟩
    match call_api search_item "adaptation" "summary" (some lt) limit with
    | .error e => (.error (.apiError e), ⟨[sumCall], []⟩)
    | .ok api_datas_summary =>
      let summary := api_datas_summary.map AdaptationSummary.ofRaw
      let fsids := crossRefs summary
      let finish := fun (api_datas_detail : List RawRecord) (calls : List ApiCall) =>
        let detail := api_datas_detail.map AdaptationDetail.ofRaw
        let csvCalls : List CsvCall :=
          if csv then
            [⟨.summaryDetail summary detail, "adaptation", "summary_detail", some lt, output_dir⟩]
          else []
        ((.ok (summary, detail) :
            Except FsfError (List AdaptationSummary × List AdaptationDetail)),
          (⟨calls, csvCalls⟩ : Effects))
      if !fsids.isEmpty then
        let detCall : ApiCall := ⟨fsids, "adaptation", "detail", none, limit⟩
        match call_api fsids "adaptation" "detail" none limit with
        | .error e => (.error (.apiError e), ⟨[sumCall, detCall], []⟩)
        | .ok api_datas_detail => finish api_datas_detail [sumCall, detCall]
      else
        finish [nullAdaptationRecord] [sumCall]

/-- `Adaptation.get_summary` (adaptation.py lines 91-123): validate
`location_type`, one `call_api` request, one `AdaptationSummary` per raw
record, optional CSV export. -/
def get_summary (call_api : CallApi) (search_item : List Ident)
    (location_type : PyValue) (csv : Bool) (limit : Nat) (output_dir : Option String) :
    Except FsfError (List AdaptationSummary) × Effects :=
  if !location_type.truthy then
    (.error (.invalidArgument location_type), ⟨[], []⟩)
  else if !location_type.isStr then
    (.error (.typeError "location is not a string"), ⟨[], []⟩)
  else
    let lt := location_type.asStr
    let call : ApiCall := ⟨search_item, "adaptation", "summary", some lt, limit⟩
    match call_api search_item "adaptation" "summary" (some lt) limit with
    | .error e => (.error (.apiError e), ⟨[call], []⟩)
    | .ok api_datas =>
      let product := api_datas.map AdaptationSummary.ofRaw
      let csvCalls : List CsvCall :=
        if csv then [⟨.adaptationSummaryList product, "adaptation", "summary", some lt, output_dir⟩]
        else []
      (.ok product, ⟨[call], csvCalls⟩)

end Adaptation

namespace Probability

/-- `Probability.get_chance` (probability.py lines 26-48): one `call_api`
request with fixed product "probability", subtype "chance", location type
"property". -/
def get_chance (call_api : CallApi) (fsids : List Ident)
    (csv : Bool) (limit : Nat) (output_dir : Option String) :
    Except FsfError (List ProbabilityChance) × Effects :=
  let call : ApiCall := ⟨fsids, "probability", "chance", some "property", limit⟩
  match call_api fsids "probability" "chance" (some "property") limit with
  | .error e => (.error (.apiError e), ⟨[call], []⟩)
  | .ok api_datas =>
    let product := api_datas.map ProbabilityChance.ofRaw
    let csvCalls : List CsvCall :=
      if csv then [⟨.probChanceList product, "probability", "chance", none, output_dir⟩]
      else []
    (.ok product, ⟨[call], csvCalls⟩)

/-- `Probability.get_count` (probability.py lines 50-81): validate
`location_type`, one `call_api` request, one `ProbabilityCount` per raw
record, optional CSV export. -/
def get_count (call_api : CallApi) (fsids : List Ident)
    (location_type : PyValue) (csv : Bool) (limit : Nat) (output_dir : Option String) :
    Except FsfError (List ProbabilityCount) × Effects :=
  if !location_type.truthy then
    (.error (.invalidArgument location_type), ⟨[], []⟩)
  else if !location_type.isStr then
    (.error (.typeError "location is not a string"), ⟨[], []⟩)
  else
    let lt := location_type.asStr
    let call : ApiCall := ⟨fsids, "probability", "count", some lt, limit⟩
    match call_api fsids "probability" "count" (some lt) limit with
    | .error e => (.error (.apiError e), ⟨[call], []⟩)
    | .ok api_datas =>
      let product := api_datas.map ProbabilityCount.ofRaw
      let csvCalls : List CsvCall :=
        if csv then [⟨.probCountList product, "probability", "count", some lt, output_dir⟩]
        else []
      (.ok product, ⟨[call], csvCalls⟩)

/-- `Probability.get_count_summary` (probability.py lines 83-105): one
`call_api` request with fixed subtype "count-summary" and location type
"property". -/
def get_count_summary (call_api : CallApi) (fsids : List Ident)
    (csv : Bool) (limit : Nat) (output_dir : Option String) :
    Except FsfError (List ProbabilityCountSummary) × Effects :=
  let call : ApiCall := ⟨fsids, "probability", "count-summary", some "property", limit⟩
  match call_api fsids "probability" "count-summary" (some "property") limit with
  | .error e => (.error (.apiError e), ⟨[call], []⟩)
  | .ok api_datas =>
    let product := api_datas.map ProbabilityCountSummary.ofRaw
    let csvCalls : List CsvCall :=
      if csv then [⟨.probCountSummaryList product, "probability", "count-summary", none, output_dir⟩]
      else []
    (.ok product, ⟨[call], csvCalls⟩)

/-- `Probability.get_cumulative` (probability.py lines 107-129): one
`call_api` request with fixed subtype "cumulative" and location type
"property". -/
def get_cumulative (call_api : CallApi) (fsids : List Ident)
    (csv : Bool) (limit : Nat) (output_dir : Option String) :
    Except FsfError (List ProbabilityCumulative) × Effects :=
  let call : ApiCall := ⟨fsids, "probability", "cumulative", some "property", limit⟩
  match call_api fsids "probability" "cumulative" (some "property") limit with
  | .error e => (.error (.apiError e), ⟨[call], []⟩)
  | .ok api_datas =>
    let product := api_datas.map ProbabilityCumulative.ofRaw
    let csvCalls : List CsvCall :=
      if csv then [⟨.probCumulativeList product, "probability", "cumulative", none, output_dir⟩]
      else []
    (.ok product, ⟨[call], csvCalls⟩)

/-- `Probability.get_depth` (probability.py lines 131-153): one `call_api`
request with fixed subtype "depth" and location type "property". -/
def get_depth (call_api : CallApi) (fsids : List Ident)
    (csv : Bool) (limit : Nat) (output_dir : Option String) :
    Except FsfError (List ProbabilityDepth) × Effects :=
  let call : ApiCall := ⟨fsids, "probability", "depth", some "property", limit⟩
  match call_api fsids "probability" "depth" (some "property") limit with
  | .error e => (.error (.apiError e), ⟨[call], []⟩)
  | .ok api_datas =>
    let product := api_datas.map ProbabilityDepth.ofRaw
    let csvCalls : List CsvCall :=
      if csv then [⟨.probDepthList product, "probability", "depth", none, output_dir⟩]
      else []
    (.ok product, ⟨[call], csvCalls⟩)

end Probability

/-! ## Helper lemmas about the cross-reference ID list -/

/-- Membership in `crossRefs`: exactly the union of the `adaptation`
cross-reference lists over all summary records. -/
theorem mem_crossRefs (summary : List AdaptationSummary) (x : Nat) :
    x ∈ Adaptation.crossRefs summary ↔ ∃ s ∈ summary, x ∈ s.adaptation.getD [] := by
  unfold Adaptation.crossRefs
  rw [List.mem_dedup, List.mem_flatten]
  constructor
  · rintro ⟨l, hl, hx⟩
    rw [List.mem_map] at hl
    obtain ⟨s, hs, rfl⟩ := hl
    exact ⟨s, (List.mem_filter.mp hs).1, hx⟩
  · rintro ⟨s, hs, hx⟩
    refine ⟨s.adaptation.getD [], List.mem_map_of_mem _ (List.mem_filter.mpr ⟨hs, ?_⟩), hx⟩
    simp only [Bool.not_eq_true', List.isEmpty_eq_false]
    exact List.ne_nil_of_mem hx

/-- When no summary record carries cross-reference IDs, `crossRefs` is empty. -/
theorem crossRefs_eq_nil (summary : List AdaptationSummary)
    (h : ∀ s ∈ summary, s.adaptation.getD [] = []) :
    Adaptation.crossRefs summary = [] := by
  unfold Adaptation.crossRefs
  have hf : summary.filter (fun s => !(s.adaptation.getD []).isEmpty) = [] := by
    rw [List.filter_eq_nil_iff]
    intro s hs
    simp [h s hs]
  rw [hf]
  rfl

/-! ## Claim theorems -/

/-- C1: for every product method and every non-empty identifier input, the
method builds exactly one ProductRecord per RawRecord returned by
`call_api`, in the same order (the result is the map of the record
constructor over the raw records), so when `call_api` returns one raw
record per input identifier the output length equals the input length. -/
theorem C1_one_record_per_raw_in_order
    (call_api : CallApi) (si : List Ident) (lt : String) (csv : Bool)
    (limit : Nat) (od : Option String) (rs : List RawRecord)
    (hsi : si ≠ []) (hrs : rs.length = si.length) (hlt : lt ≠ "") :
    (call_api si "adaptation" "detail" none limit = .ok rs →
      (Adaptation.get_detail call_api si csv limit od).1
          = .ok (rs.map AdaptationDetail.ofRaw)
        ∧ (rs.map AdaptationDetail.ofRaw).length = si.length)
    ∧ (call_api si "adaptation" "summary" (some lt) limit = .ok rs →
      (Adaptation.get_summary call_api si (.pystr lt) csv limit od).1
          = .ok (rs.map AdaptationSummary.ofRaw)
        ∧ (rs.map AdaptationSummary.ofRaw).length = si.length)
    ∧ (call_api si "probability" "chance" (some "property") limit = .ok rs →
      (Probability.get_chance call_api si csv limit od).1
          = .ok (rs.map ProbabilityChance.ofRaw)
        ∧ (rs.map ProbabilityChance.ofRaw).length = si.length)
    ∧ (call_api si "probability" "count" (some lt) limit = .ok rs →
      (Probability.get_count call_api si (.pystr lt) csv limit od).1
          = .ok (rs.map ProbabilityCount.ofRaw)
        ∧ (rs.map ProbabilityCount.ofRaw).length = si.length)
    ∧ (call_api si "probability" "count-summary" (some "property") limit = .ok rs →
      (Probability.get_count_summary call_api si csv limit od).1
          = .ok (rs.map ProbabilityCountSummary.ofRaw)
        ∧ (rs.map ProbabilityCountSummary.ofRaw).length = si.length)
    ∧ (call_api si "probability" "cumulative" (some "property") limit = .ok rs →
      (Probability.get_cumulative call_api si csv limit od).1
          = .ok (rs.map ProbabilityCumulative.ofRaw)
        ∧ (rs.map ProbabilityCumulative.ofRaw).length = si.length)
    ∧ (call_api si "probability" "depth" (some "property") limit = .ok rs →
      (Probability.get_depth call_api si csv limit od).1
          = .ok (rs.map ProbabilityDepth.ofRaw)
        ∧ (rs.map ProbabilityDepth.ofRaw).length = si.length) := by
  refine ⟨fun h => ?_, fun h => ?_, fun h => ?_, fun h => ?_, fun h => ?_,
    fun h => ?_, fun h => ?_⟩ <;>
    simp [Adaptation.get_detail, Adaptation.get_summary, Probability.get_chance,
      Probability.get_count, Probability.get_count_summary, Probability.get_cumulative,
      Probability.get_depth, PyValue.truthy, PyValue.isStr, PyValue.asStr, hlt, h, hrs]

/-- A sample raw record used by witnesses. -/
def rawSample : RawRecord := ⟨some 7, some 1, none⟩

/-- An oracle that answers every request with the single record `rawSample`. -/
def oracleSample : CallApi := fun _ _ _ _ _ => .ok [rawSample]

/-- Witness for C1 at a concrete input. -/
theorem C1_one_record_per_raw_in_order_witness :
    (Adaptation.get_detail oracleSample [5] false 100 none).1
      = .ok [AdaptationDetail.ofRaw rawSample] :=
  ((C1_one_record_per_raw_in_order oracleSample [5] "city" false 100 none [rawSample]
    (by decide) (by decide) (by decide)).1 rfl).1

/-- C4: for the three methods taking a `location_type`, an empty (falsy)
location type makes the method raise `InvalidArgument` with an empty
effect log: zero `call_api` invocations and zero CSV exports. -/
theorem C4_empty_location_type_invalid_argument_before_call
    (call_api : CallApi) (si : List Ident) (lt : PyValue) (csv : Bool)
    (limit : Nat) (od : Option String) (hlt : lt.truthy = false) :
    Adaptation.get_summary call_api si lt csv limit od
        = (.error (.invalidArgument lt), ⟨[], []⟩)
    ∧ Adaptation.get_details_by_location call_api si lt csv limit od
        = (.error (.invalidArgument lt), ⟨[], []⟩)
    ∧ Probability.get_count call_api si lt csv limit od
        = (.error (.invalidArgument lt), ⟨[], []⟩) := by
  refine ⟨?_, ?_, ?_⟩ <;>
    simp [Adaptation.get_summary, Adaptation.get_details_by_location,
      Probability.get_count, hlt]

/-- Witness for C4 at the empty string. -/
theorem C4_empty_location_type_invalid_argument_before_call_witness :
    Adaptation.get_summary oracleSample [5] (.pystr "") false 100 none
      = (.error (.invalidArgument (.pystr "")), ⟨[], []⟩) :=
  (C4_empty_location_type_invalid_argument_before_call oracleSample [5]
    (.pystr "") false 100 none (by decide)).1

/-- C5 counterexample: `location_type = 0` is a non-string (an integer),
yet `Probability.get_count` raises `InvalidArgument`, not `TypeError`:
the claim "if location_type is not a string the method raises TypeError"
fails at falsy non-strings. -/
theorem C5_counterexample_integer_zero_gives_invalid_argument :
    (Probability.get_count oracleSample [1] (.pyint 0) false 100 none).1
        = .error (.invalidArgument (.pyint 0))
    ∧ resultIsTypeError
        (Probability.get_count oracleSample [1] (.pyint 0) false 100 none).1 = false :=
  ⟨rfl, rfl⟩

/-- C5 (amended): for every method taking a `location_type`, a truthy
non-string location type raises `TypeError` before any `call_api`
invocation. -/
theorem C5_truthy_nonstring_location_type_typeerror
    (call_api : CallApi) (si : List Ident) (lt : PyValue) (csv : Bool)
    (limit : Nat) (od : Option String)
    (ht : lt.truthy = true) (hs : lt.isStr = false) :
    Adaptation.get_summary call_api si lt csv limit od
        = (.error (.typeError "location is not a string"), ⟨[], []⟩)
    ∧ Adaptation.get_details_by_location call_api si lt csv limit od
        = (.error (.typeError "location is not a string"), ⟨[], []⟩)
    ∧ Probability.get_count call_api si lt csv limit od
        = (.error (.typeError "location is not a string"), ⟨[], []⟩) := by
  refine ⟨?_, ?_, ?_⟩ <;>
    simp [Adaptation.get_summary, Adaptation.get_details_by_location,
      Probability.get_count, ht, hs]

/-- Witness for the amended C5 at the integer 7. -/
theorem C5_truthy_nonstring_location_type_typeerror_witness :
    Probability.get_count oracleSample [1] (.pyint 7) false 100 none
      = (.error (.typeError "location is not a string"), ⟨[], []⟩) :=
  (C5_truthy_nonstring_location_type_typeerror oracleSample [1] (.pyint 7)
    false 100 none (by decide) (by decide)).2.2

/-- C2: in `get_details_by_location`, when no summary record carries any
cross-reference adaptation IDs, no second `call_api` request is issued
(the effect log holds only the summary request); detail mapping runs
exactly once against the null-placeholder raw record, so the detail list
is the one-element list mapping that placeholder and its identifying
field is null. -/
theorem C2_no_cross_refs_single_placeholder_detail
    (call_api : CallApi) (si : List Ident) (lt : String) (csv : Bool)
    (limit : Nat) (od : Option String) (rs : List RawRecord)
    (hlt : lt ≠ "")
    (h : call_api si "adaptation" "summary" (some lt) limit = .ok rs)
    (hnone : ∀ r ∈ rs, r.adaptation.getD [] = []) :
    (Adaptation.get_details_by_location call_api si (.pystr lt) csv limit od).2.apiCalls
        = [⟨si, "adaptation", "summary", some lt, limit⟩]
    ∧ (Adaptation.get_details_by_location call_api si (.pystr lt) csv limit od).1
        = .ok (rs.map AdaptationSummary.ofRaw, [AdaptationDetail.ofRaw nullAdaptationRecord])
    ∧ (AdaptationDetail.ofRaw nullAdaptationRecord).adaptationId = none := by
  have hcr : Adaptation.crossRefs (rs.map AdaptationSummary.ofRaw) = [] := by
    apply crossRefs_eq_nil
    intro s hs
    rw [List.mem_map] at hs
    obtain ⟨r, hr, rfl⟩ := hs
    exact hnone r hr
  refine ⟨?_, ?_, rfl⟩ <;>
    simp [Adaptation.get_details_by_location, PyValue.truthy, PyValue.isStr,
      PyValue.asStr, hlt, h, hcr]

/-- Witness for C2: a single summary record without cross-reference IDs. -/
theorem C2_no_cross_refs_single_placeholder_detail_witness :
    (Adaptation.get_details_by_location
        (fun _ _ _ _ _ => .ok [⟨some 7, none, none⟩]) [5] (.pystr "city") false 100 none).1
      = .ok ([AdaptationSummary.ofRaw ⟨some 7, none, none⟩],
             [AdaptationDetail.ofRaw nullAdaptationRecord]) :=
  (C2_no_cross_refs_single_placeholder_detail
    (fun _ _ _ _ _ => .ok [⟨some 7, none, none⟩]) [5] "city" false 100 none
    [⟨some 7, none, none⟩] (by decide) rfl (by intro r hr; simp at hr; subst hr; rfl)).2.1

/-- C3: in `get_details_by_location`, whenever a detail-phase request is
issued, the identifier list passed to it is duplicate-free and its
members are exactly the union of the cross-reference adaptation IDs
embedded in the summary records. -/
theorem C3_detail_phase_receives_dedup_union
    (call_api : CallApi) (si : List Ident) (lt : String) (csv : Bool)
    (limit : Nat) (od : Option String) (rs : List RawRecord)
    (hlt : lt ≠ "")
    (h : call_api si "adaptation" "summary" (some lt) limit = .ok rs)
    (hne : Adaptation.crossRefs (rs.map AdaptationSummary.ofRaw) ≠ []) :
    (Adaptation.get_details_by_location call_api si (.pystr lt) csv limit od).2.apiCalls
        = [⟨si, "adaptation", "summary", some lt, limit⟩,
           ⟨Adaptation.crossRefs (rs.map AdaptationSummary.ofRaw),
             "adaptation", "detail", none, limit⟩]
    ∧ (Adaptation.crossRefs (rs.map AdaptationSummary.ofRaw)).Nodup
    ∧ (∀ x, x ∈ Adaptation.crossRefs (rs.map AdaptationSummary.ofRaw)
          ↔ ∃ s ∈ rs.map AdaptationSummary.ofRaw, x ∈ s.adaptation.getD []) := by
  refine ⟨?_, by unfold Adaptation.crossRefs; exact List.nodup_dedup _,
    fun x => mem_crossRefs _ x⟩
  cases hd : call_api (Adaptation.crossRefs (rs.map AdaptationSummary.ofRaw))
      "adaptation" "detail" none limit <;>
    simp [Adaptation.get_details_by_location, PyValue.truthy, PyValue.isStr,
      PyValue.asStr, List.isEmpty_eq_false, hlt, h, hd, hne]

/-- Witness for C3: one summary record carrying the duplicated list [3, 3]. -/
theorem C3_detail_phase_receives_dedup_union_witness :
    (Adaptation.get_details_by_location
        (fun _ _ _ _ _ => .ok [⟨some 7, none, some [3, 3]⟩]) [5] (.pystr "city")
        false 100 none).2.apiCalls
      = [⟨[5], "adaptation", "summary", some "city", 100⟩,
         ⟨[3], "adaptation", "detail", none, 100⟩] :=
  (C3_detail_phase_receives_dedup_union
    (fun _ _ _ _ _ => .ok [⟨some 7, none, some [3, 3]⟩]) [5] "city" false 100 none
    [⟨some 7, none, some [3, 3]⟩] (by decide) rfl (by decide)).1

/-- C6: for every product method, when `call_api` fails the method
propagates exactly that error, records exactly the `call_api` invocations
already made (no retry of the failed phase), returns no records and
performs no CSV export. -/
theorem C6_api_error_propagates_without_retry_or_csv
    (call_api : CallApi) (si : List Ident) (lt : String) (csv : Bool)
    (limit : Nat) (od : Option String) (rs : List RawRecord) (e : ApiError)
    (hlt : lt ≠ "") :
    (call_api si "adaptation" "detail" none limit = .error e →
      Adaptation.get_detail call_api si csv limit od
        = (.error (.apiError e), ⟨[⟨si, "adaptation", "detail", none, limit⟩], []⟩))
    ∧ (call_api si "adaptation" "summary" (some lt) limit = .error e →
      Adaptation.get_summary call_api si (.pystr lt) csv limit od
        = (.error (.apiError e), ⟨[⟨si, "adaptation", "summary", some lt, limit⟩], []⟩))
    ∧ (call_api si "adaptation" "summary" (some lt) limit = .error e →
      Adaptation.get_details_by_location call_api si (.pystr lt) csv limit od
        = (.error (.apiError e), ⟨[⟨si, "adaptation", "summary", some lt, limit⟩], []⟩))
    ∧ (call_api si "adaptation" "summary" (some lt) limit = .ok rs →
       Adaptation.crossRefs (rs.map AdaptationSummary.ofRaw) ≠ [] →
       call_api (Adaptation.crossRefs (rs.map AdaptationSummary.ofRaw))
           "adaptation" "detail" none limit = .error e →
      Adaptation.get_details_by_location call_api si (.pystr lt) csv limit od
        = (.error (.apiError e),
           ⟨[⟨si, "adaptation", "summary", some lt, limit⟩,
             ⟨Adaptation.crossRefs (rs.map AdaptationSummary.ofRaw),
               "adaptation", "detail", none, limit⟩], []⟩))
    ∧ (call_api si "probability" "chance" (some "property") limit = .error e →
      Probability.get_chance call_api si csv limit od
        = (.error (.apiError e), ⟨[⟨si, "probability", "chance", some "property", limit⟩], []⟩))
    ∧ (call_api si "probability" "count" (some lt) limit = .error e →
      Probability.get_count call_api si (.pystr lt) csv limit od
        = (.error (.apiError e), ⟨[⟨si, "probability", "count", some lt, limit⟩], []⟩))
    ∧ (call_api si "probability" "count-summary" (some "property") limit = .error e →
      Probability.get_count_summary call_api si csv limit od
        = (.error (.apiError e),
           ⟨[⟨si, "probability", "count-summary", some "property", limit⟩], []⟩))
    ∧ (call_api si "probability" "cumulative" (some "property") limit = .error e →
      Probability.get_cumulative call_api si csv limit od
        = (.error (.apiError e), ⟨[⟨si, "probability", "cumulative", some "property", limit⟩], []⟩))
    ∧ (call_api si "probability" "depth" (some "property") limit = .error e →
      Probability.get_depth call_api si csv limit od
        = (.error (.apiError e), ⟨[⟨si, "probability", "depth", some "property", limit⟩], []⟩)) := by
  refine ⟨fun h => ?_, fun h => ?_, fun h => ?_, fun h1 h2 h3 => ?_, fun h => ?_,
    fun h => ?_, fun h => ?_, fun h => ?_, fun h => ?_⟩
  · simp [Adaptation.get_detail, h]
  · simp [Adaptation.get_summary, PyValue.truthy, PyValue.isStr, PyValue.asStr, hlt, h]
  · simp [Adaptation.get_details_by_location, PyValue.truthy, PyValue.isStr,
      PyValue.asStr, hlt, h]
  · simp [Adaptation.get_details_by_location, PyValue.truthy, PyValue.isStr,
      PyValue.asStr, List.isEmpty_eq_false, hlt, h1, h2, h3]
  · simp [Probability.get_chance, h]
  · simp [Probability.get_count, PyValue.truthy, PyValue.isStr, PyValue.asStr, hlt, h]
  · simp [Probability.get_count_summary, h]
  · simp [Probability.get_cumulative, h]
  · simp [Probability.get_depth, h]

/-- An oracle that fails every request with a fixed backend error. -/
def oracleFail : CallApi := fun _ _ _ _ _ => .error ⟨500, "server error"⟩

/-- Witness for C6: a failing `get_detail` call propagates the error with
one recorded request and no CSV export. -/
theorem C6_api_error_propagates_without_retry_or_csv_witness :
    Adaptation.get_detail oracleFail [5] true 100 none
      = (.error (.apiError ⟨500, "server error"⟩),
         ⟨[⟨[5], "adaptation", "detail", none, 100⟩], []⟩) :=
  (C6_api_error_propagates_without_retry_or_csv oracleFail [5] "city" true 100 none
    [] ⟨500, "server error"⟩ (by decide)).1 rfl

/-- C7: for every product method, when `call_api` succeeds the CSV export
log is exactly one `to_csv` invocation carrying the full mapped record
set when the csv flag is true, and empty when the flag is false; the
two-phase method passes the summary and detail lists together in that
single invocation. -/
theorem C7_csv_export_once_with_full_set_iff_flag
    (call_api : CallApi) (si : List Ident) (lt : String) (csv : Bool)
    (limit : Nat) (od : Option String) (rs rs2 : List RawRecord)
    (hlt : lt ≠ "") :
    (call_api si "adaptation" "detail" none limit = .ok rs →
      (Adaptation.get_detail call_api si csv limit od).2.csvCalls
        = if csv then
            [⟨.adaptationDetailList (rs.map AdaptationDetail.ofRaw),
              "adaptation", "detail", none, od⟩]
          else [])
    ∧ (call_api si "adaptation" "summary" (some lt) limit = .ok rs →
      (Adaptation.get_summary call_api si (.pystr lt) csv limit od).2.csvCalls
        = if csv then
            [⟨.adaptationSummaryList (rs.map AdaptationSummary.ofRaw),
              "adaptation", "summary", some lt, od⟩]
          else [])
    ∧ (call_api si "adaptation" "summary" (some lt) limit = .ok rs →
       Adaptation.crossRefs (rs.map AdaptationSummary.ofRaw) ≠ [] →
       call_api (Adaptation.crossRefs (rs.map AdaptationSummary.ofRaw))
           "adaptation" "detail" none limit = .ok rs2 →
      (Adaptation.get_details_by_location call_api si (.pystr lt) csv limit od).2.csvCalls
        = if csv then
            [⟨.summaryDetail (rs.map AdaptationSummary.ofRaw) (rs2.map AdaptationDetail.ofRaw),
              "adaptation", "summary_detail", some lt, od⟩]
          else [])
    ∧ (call_api si "adaptation" "summary" (some lt) limit = .ok rs →
       Adaptation.crossRefs (rs.map AdaptationSummary.ofRaw) = [] →
      (Adaptation.get_details_by_location call_api si (.pystr lt) csv limit od).2.csvCalls
        = if csv then
            [⟨.summaryDetail (rs.map AdaptationSummary.ofRaw)
                [AdaptationDetail.ofRaw nullAdaptationRecord],
              "adaptation", "summary_detail", some lt, od⟩]
          else [])
    ∧ (call_api si "probability" "chance" (some "property") limit = .ok rs →
      (Probability.get_chance call_api si csv limit od).2.csvCalls
        = if csv then
            [⟨.probChanceList (rs.map ProbabilityChance.ofRaw),
              "probability", "chance", none, od⟩]
          else [])
    ∧ (call_api si "probability" "count" (some lt) limit = .ok rs →
      (Probability.get_count call_api si (.pystr lt) csv limit od).2.csvCalls
        = if csv then
            [⟨.probCountList (rs.map ProbabilityCount.ofRaw),
              "probability", "count", some lt, od⟩]
          else [])
    ∧ (call_api si "probability" "count-summary" (some "property") limit = .ok rs →
      (Probability.get_count_summary call_api si csv limit od).2.csvCalls
        = if csv then
            [⟨.probCountSummaryList (rs.map ProbabilityCountSummary.ofRaw),
              "probability", "count-summary", none, od⟩]
          else [])
    ∧ (call_api si "probability" "cumulative" (some "property") limit = .ok rs →
      (Probability.get_cumulative call_api si csv limit od).2.csvCalls
        = if csv then
            [⟨.probCumulativeList (rs.map ProbabilityCumulative.ofRaw),
              "probability", "cumulative", none, od⟩]
          else [])
    ∧ (call_api si "probability" "depth" (some "property") limit = .ok rs →
      (Probability.get_depth call_api si csv limit od).2.csvCalls
        = if csv then
            [⟨.probDepthList (rs.map ProbabilityDepth.ofRaw),
              "probability", "depth", none, od⟩]
          else []) := by
  refine ⟨fun h => ?_, fun h => ?_, fun h1 h2 h3 => ?_, fun h1 h2 => ?_, fun h => ?_,
    fun h => ?_, fun h => ?_, fun h => ?_, fun h => ?_⟩
  · simp [Adaptation.get_detail, h]
  · simp [Adaptation.get_summary, PyValue.truthy, PyValue.isStr, PyValue.asStr, hlt, h]
  · simp [Adaptation.get_details_by_location, PyValue.truthy, PyValue.isStr,
      PyValue.asStr, List.isEmpty_eq_false, hlt, h1, h2, h3]
  · simp [Adaptation.get_details_by_location, PyValue.truthy, PyValue.isStr,
      PyValue.asStr, hlt, h1, h2]
  · simp [Probability.get_chance, h]
  · simp [Probability.get_count, PyValue.truthy, PyValue.isStr, PyValue.asStr, hlt, h]
  · simp [Probability.get_count_summary, h]
  · simp [Probability.get_cumulative, h]
  · simp [Probability.get_depth, h]

/-- Witness for C7: `get_detail` with the csv flag on exports once, with
the full mapped record set. -/
theorem C7_csv_export_once_with_full_set_iff_flag_witness :
    (Adaptation.get_detail oracleSample [5] true 100 none).2.csvCalls
      = [⟨.adaptationDetailList [AdaptationDetail.ofRaw rawSample],
          "adaptation", "detail", none, none⟩] :=
  (C7_csv_export_once_with_full_set_iff_flag oracleSample [5] "city" true 100 none
    [rawSample] [] (by decide)).1 rfl

/-- The methods validating `location_type` raise `TypeError` exactly when
the argument is truthy and not a string: helper for `get_summary`. -/
theorem resultIsTypeError_get_summary
    (call_api : CallApi) (si : List Ident) (lt : PyValue) (csv : Bool)
    (limit : Nat) (od : Option String) :
    resultIsTypeError (Adaptation.get_summary call_api si lt csv limit od).1
      = (lt.truthy && !lt.isStr) := by
  unfold Adaptation.get_summary
  by_cases ht : lt.truthy <;> by_cases hs : lt.isStr <;>
    simp [ht, hs, resultIsTypeError] <;>
    cases hcall : call_api si "adaptation" "summary" (some lt.asStr) limit <;>
      simp [hcall, resultIsTypeError]

/-- Helper for `get_details_by_location`: `TypeError` arises exactly from
the truthy-non-string validation branch. -/
theorem resultIsTypeError_get_details_by_location
    (call_api : CallApi) (si : List Ident) (lt : PyValue) (csv : Bool)
    (limit : Nat) (od : Option String) :
    resultIsTypeError (Adaptation.get_details_by_location call_api si lt csv limit od).1
      = (lt.truthy && !lt.isStr) := by
  unfold Adaptation.get_details_by_location
  by_cases ht : lt.truthy
  · by_cases hs : lt.isStr
    · simp only [ht, hs, Bool.not_true, Bool.false_eq_true, if_false, Bool.and_false,
        Bool.true_and]
      cases hcall : call_api si "adaptation" "summary" (some lt.asStr) limit with
      | error e => simp [hcall, resultIsTypeError]
      | ok rs =>
        by_cases hcr : Adaptation.crossRefs (rs.map AdaptationSummary.ofRaw) = []
        · simp [hcall, hcr, resultIsTypeError]
        · cases hd : call_api (Adaptation.crossRefs (rs.map AdaptationSummary.ofRaw))
              "adaptation" "detail" none limit <;>
            simp [hcall, hcr, hd, resultIsTypeError]
    · simp [ht, hs, resultIsTypeError]
  · simp [ht, resultIsTypeError]

/-- Helper for `Probability.get_count`: `TypeError` arises exactly from
the truthy-non-string validation branch. -/
theorem resultIsTypeError_get_count
    (call_api : CallApi) (si : List Ident) (lt : PyValue) (csv : Bool)
    (limit : Nat) (od : Option String) :
    resultIsTypeError (Probability.get_count call_api si lt csv limit od).1
      = (lt.truthy && !lt.isStr) := by
  unfold Probability.get_count
  by_cases ht : lt.truthy <;> by_cases hs : lt.isStr <;>
    simp [ht, hs, resultIsTypeError] <;>
    cases hcall : call_api si "probability" "count" (some lt.asStr) limit <;>
      simp [hcall, resultIsTypeError]

/-- C8: every falsy `location_type`, of any type, makes the three
validating methods raise `InvalidArgument`; `TypeError` is reachable only
for truthy non-string values, because the emptiness check runs first. -/
theorem C8_falsy_invalid_argument_typeerror_only_truthy_nonstring
    (call_api : CallApi) (si : List Ident) (lt : PyValue) (csv : Bool)
    (limit : Nat) (od : Option String) :
    (lt.truthy = false →
        (Adaptation.get_summary call_api si lt csv limit od).1
            = .error (.invalidArgument lt)
      ∧ (Adaptation.get_details_by_location call_api si lt csv limit od).1
            = .error (.invalidArgument lt)
      ∧ (Probability.get_count call_api si lt csv limit od).1
            = .error (.invalidArgument lt))
    ∧ ((resultIsTypeError (Adaptation.get_summary call_api si lt csv limit od).1 = true
        ∨ resultIsTypeError
            (Adaptation.get_details_by_location call_api si lt csv limit od).1 = true
        ∨ resultIsTypeError (Probability.get_count call_api si lt csv limit od).1 = true)
      → lt.truthy = true ∧ lt.isStr = false) := by
  constructor
  · intro h
    refine ⟨?_, ?_, ?_⟩ <;>
      simp [Adaptation.get_summary, Adaptation.get_details_by_location,
        Probability.get_count, h]
  · intro hdisj
    rcases hdisj with hd | hd | hd
    · rw [resultIsTypeError_get_summary] at hd
      simpa [Bool.and_eq_true, Bool.not_eq_true'] using hd
    · rw [resultIsTypeError_get_details_by_location] at hd
      simpa [Bool.and_eq_true, Bool.not_eq_true'] using hd
    · rw [resultIsTypeError_get_count] at hd
      simpa [Bool.and_eq_true, Bool.not_eq_true'] using hd

/-- Witness for C8: the falsy empty list raises `InvalidArgument`. -/
theorem C8_falsy_invalid_argument_typeerror_only_truthy_nonstring_witness :
    (Adaptation.get_summary oracleSample [1] (.pylist []) false 100 none).1
      = .error (.invalidArgument (.pylist [])) :=
  ((C8_falsy_invalid_argument_typeerror_only_truthy_nonstring oracleSample [1]
    (.pylist []) false 100 none).1 rfl).1

/-- C9: the Probability methods without a `location_type` argument always
issue exactly one `call_api` request with product "probability" and the
fixed location type "property", for every input and oracle behaviour. -/
theorem C9_fixed_property_location_type
    (call_api : CallApi) (fsids : List Ident) (csv : Bool)
    (limit : Nat) (od : Option String) :
    (Probability.get_chance call_api fsids csv limit od).2.apiCalls
        = [⟨fsids, "probability", "chance", some "property", limit⟩]
    ∧ (Probability.get_count_summary call_api fsids csv limit od).2.apiCalls
        = [⟨fsids, "probability", "count-summary", some "property", limit⟩]
    ∧ (Probability.get_cumulative call_api fsids csv limit od).2.apiCalls
        = [⟨fsids, "probability", "cumulative", some "property", limit⟩]
    ∧ (Probability.get_depth call_api fsids csv limit od).2.apiCalls
        = [⟨fsids, "probability", "depth", some "property", limit⟩] := by
  refine ⟨?_, ?_, ?_, ?_⟩
  · cases h : call_api fsids "probability" "chance" (some "property") limit <;>
      simp [Probability.get_chance, h]
  · cases h : call_api fsids "probability" "count-summary" (some "property") limit <;>
      simp [Probability.get_count_summary, h]
  · cases h : call_api fsids "probability" "cumulative" (some "property") limit <;>
      simp [Probability.get_cumulative, h]
  · cases h : call_api fsids "probability" "depth" (some "property") limit <;>
      simp [Probability.get_depth, h]

/-- The two-phase method's returned value is independent of the csv flag
and output directory: helper for C10. -/
theorem get_details_by_location_fst_csv_indep
    (call_api : CallApi) (si : List Ident) (lt : PyValue) (limit : Nat)
    (a b : Bool) (o1 o2 : Option String) :
    (Adaptation.get_details_by_location call_api si lt a limit o1).1
      = (Adaptation.get_details_by_location call_api si lt b limit o2).1 := by
  unfold Adaptation.get_details_by_location
  by_cases ht : lt.truthy
  · by_cases hs : lt.isStr
    · simp only [ht, hs, Bool.not_true, Bool.false_eq_true, if_false]
      cases hcall : call_api si "adaptation" "summary" (some lt.asStr) limit with
      | error e => simp [hcall]
      | ok rs =>
        by_cases hcr : Adaptation.crossRefs (rs.map AdaptationSummary.ofRaw) = []
        · simp [hcall, hcr]
        · cases hd : call_api (Adaptation.crossRefs (rs.map AdaptationSummary.ofRaw))
              "adaptation" "detail" none limit <;>
            simp [hcall, hcr, hd]
    · simp [ht, hs]
  · simp [ht]

/-- C10: for every product method, fixed search input and `call_api`
behaviour, the returned record sequence is identical between runs with
csv on or off and with any output directories: the csv and output_dir
arguments influence only the CSV-export side effect. -/
theorem C10_result_independent_of_csv_and_output_dir
    (call_api : CallApi) (si : List Ident) (lt : PyValue) (limit : Nat)
    (csvA csvB : Bool) (odA odB : Option String) :
    (Adaptation.get_detail call_api si csvA limit odA).1
        = (Adaptation.get_detail call_api si csvB limit odB).1
    ∧ (Adaptation.get_summary call_api si lt csvA limit odA).1
        = (Adaptation.get_summary call_api si lt csvB limit odB).1
    ∧ (Adaptation.get_details_by_location call_api si lt csvA limit odA).1
        = (Adaptation.get_details_by_location call_api si lt csvB limit odB).1
    ∧ (Probability.get_chance call_api si csvA limit odA).1
        = (Probability.get_chance call_api si csvB limit odB).1
    ∧ (Probability.get_count call_api si lt csvA limit odA).1
        = (Probability.get_count call_api si lt csvB limit odB).1
    ∧ (Probability.get_count_summary call_api si csvA limit odA).1
        = (Probability.get_count_summary call_api si csvB limit odB).1
    ∧ (Probability.get_cumulative call_api si csvA limit odA).1
        = (Probability.get_cumulative call_api si csvB limit odB).1
    ∧ (Probability.get_depth call_api si csvA limit odA).1
        = (Probability.get_depth call_api si csvB limit odB).1 := by
  refine ⟨?_, ?_, get_details_by_location_fst_csv_indep call_api si lt limit csvA csvB odA odB,
    ?_, ?_, ?_, ?_, ?_⟩
  · cases h : call_api si "adaptation" "detail" none limit <;>
      simp [Adaptation.get_detail, h]
  · by_cases ht : lt.truthy
    · by_cases hs : lt.isStr
      · cases h : call_api si "adaptation" "summary" (some lt.asStr) limit <;>
          simp [Adaptation.get_summary, ht, hs, h]
      · simp [Adaptation.get_summary, ht, hs]
    · simp [Adaptation.get_summary, ht]
  · cases h : call_api si "probability" "chance" (some "property") limit <;>
      simp [Probability.get_chance, h]
  · by_cases ht : lt.truthy
    · by_cases hs : lt.isStr
      · cases h : call_api si "probability" "count" (some lt.asStr) limit <;>
          simp [Probability.get_count, ht, hs, h]
      · simp [Probability.get_count, ht, hs]
    · simp [Probability.get_count, ht]
  · cases h : call_api si "probability" "count-summary" (some "property") limit <;>
      simp [Probability.get_count_summary, h]
  · cases h : call_api si "probability" "cumulative" (some "property") limit <;>
      simp [Probability.get_cumulative, h]
  · cases h : call_api si "probability" "depth" (some "property") limit <;>
      simp [Probability.get_depth, h]
